import Mathlib

/-!
Verification development for the LDN backend job-assignment engine
(`app/routes/jobs.py` and friends).

The database tables (`users`, `properties`, `jobs`, `clerk_availability`,
`assignment_logs`) are modelled as Lean lists held in a `DB` record; each
Flask route that the claims mention becomes a Lean function from a `DB`
(plus the request payload) to `Except ApiError DB`, where an `Except.error`
result models an HTTP error response with the transaction rolled back
(no state change committed).

Conventions used throughout, mirroring the Python source:
* Nullable SQL columns become `Option` fields.
* SQLAlchemy `Numeric` coordinate columns become `Option ℚ`; Python
  truthiness on such a value (`if clerk.current_lat:`) is `truthy`:
  both `NULL` and `0` are falsy.
* Dates are day numbers (`Int`); only the date part of
  `appointment_date` is ever consulted by the engine, so it is stored
  date-granular.  Timestamps are `Int` instants.
* `calculate_distance` (haversine, floating-point trigonometry in
  `app/utils/helpers.py`) is an opaque pure function of the four
  coordinates; the engine is parametrised over it as `Dist`, since every
  claim is about how the engine uses the returned kilometre value.
* The stable Python `list.sort(key, reverse = True)` is modelled by the
  stable insertion sort `sortDesc`.
-/

namespace LDN

abbrev UserId := Nat

abbrev PropId := Nat

abbrev JobId := Nat

abbrev DateT := Int

abbrev TimeT := Int

/-- Opaque great-circle distance function (km), standing for
`calculate_distance lat1 lon1 lat2 lon2` in `app/utils/helpers.py`. -/
abbrev Dist := ℚ → ℚ → ℚ → ℚ → ℚ

/-- Model of the Python `max(a, b)` on two rationals (`max(0, ...)` in the scoring
code): returns the second argument only when it is strictly greater. -/
def pymax (a b : ℚ) : ℚ := if b > a then b else a

/-- Python truthiness of a nullable numeric column: `None` and `0` are falsy. -/
def truthy : Option ℚ → Bool
  | none => false
  | some x => !(x == 0)

/-- Python truthiness of a nullable string column: `None` and `""` are falsy. -/
def truthyS : Option String → Bool
  | none => false
  | some s => !(s == "")

/-- Enum `user_role_enum` from `app/models/user.py`. -/
inductive Role
  | admin
  | clerk
  | agent
deriving DecidableEq

/-- Row of the `users` table (`app/models/user.py`); columns the assignment engine
never reads (email, address, timestamps, ...) are omitted. -/
structure User where
  id : UserId
  role : Role
  is_active : Bool
  is_on_shift : Bool
  current_lat : Option ℚ
  current_lng : Option ℚ
deriving DecidableEq

/-- Row of the `properties` table (`app/models/property.py`); `postcode` is
`nullable=False`, latitude/longitude are nullable. -/
structure Property where
  id : PropId
  postcode : String
  latitude : Option ℚ
  longitude : Option ℚ
deriving DecidableEq

/-- Enum `job_status_enum` from `app/models/job.py`. -/
inductive JobStatus
  | pending_assignment
  | assigned
  | on_route
  | in_progress
  | completed
  | cancelled
deriving DecidableEq

/-- Row of the `jobs` table (`app/models/job.py`); columns not read or written by the
operations under verification are omitted. -/
structure Job where
  id : JobId
  property_id : PropId
  assigned_clerk_id : Option UserId
  status : JobStatus
  appointment_date : DateT
  on_route_at : Option TimeT
  check_in_at : Option TimeT
  check_in_lat : Option ℚ
  check_in_lng : Option ℚ
  location_warning_flag : Bool
  check_out_at : Option TimeT
  check_out_lat : Option ℚ
  check_out_lng : Option ℚ
deriving DecidableEq

/-- Row of the `clerk_availability` table (`app/models/availability.py`). -/
structure ClerkAvailability where
  user_id : UserId
  available_date : DateT
  is_available : Bool
  postcode : Option String
deriving DecidableEq

/-- Action types written by `app/routes/jobs.py`. -/
inductive ActionType
  | AUTO_ASSIGN
  | MANUAL_OVERRIDE
  | REJECTION
deriving DecidableEq

/-- Row of the `assignment_logs` table (`app/models/assignment_log.py`). -/
structure AssignmentLog where
  job_id : JobId
  previous_clerk_id : Option UserId
  new_clerk_id : Option UserId
  action_type : ActionType
  triggered_by_user_id : Option UserId
  reason : String
deriving DecidableEq

/-- The queryable store backing the routes. -/
structure DB where
  users : List User
  props : List Property
  avail : List ClerkAvailability
  jobs : List Job
  logs : List AssignmentLog
deriving DecidableEq

/-- Error responses of the routes: 404, 400 `Invalid clerk selected`,
403 `You are not assigned to this job`. -/
inductive ApiError
  | notFound
  | invalidClerk
  | unauthorized
deriving DecidableEq

/-- Lookup `Job.query.get_or_404(job_id)`. -/
def getJob (db : DB) (job_id : JobId) : Option Job :=
  db.jobs.find? (fun j => j.id == job_id)

/-- Lookup `Property.query.get(pid)`, also the `job.property` relationship. -/
def getProp (db : DB) (pid : PropId) : Option Property :=
  db.props.find? (fun p => p.id == pid)

/-- Commit a mutated job row back to the store (SQLAlchemy identity map:
the row with the same primary key is replaced). -/
def db_update_job (db : DB) (j : Job) : DB :=
  { db with jobs := db.jobs.map (fun x => if x.id == j.id then j else x) }

/-- Append `db.session.add(log)`: the log table is append-only. -/
def db_add_log (db : DB) (l : AssignmentLog) : DB :=
  { db with logs := db.logs ++ [l] }

/-- Query `User.query.filter_by(role = clerk, is_active = True)` plus, for
same-day jobs, `.filter_by(is_on_shift=True)` (jobs.py lines 89-95). -/
def baseClerks (today : DateT) (db : DB) (d : DateT) : List User :=
  db.users.filter (fun u =>
    u.role == Role.clerk && u.is_active &&
    (if d == today then u.is_on_shift else true))

/-- The per-clerk availability check of jobs.py lines 102-115: same-day
jobs require truthy live coordinates; other dates require a
`ClerkAvailability` row for that exact date with `is_available=True`. -/
def availOk (today : DateT) (db : DB) (d : DateT) (u : User) : Bool :=
  if d == today then
    truthy u.current_lat && truthy u.current_lng
  else
    (db.avail.find? (fun a =>
      a.user_id == u.id && a.available_date == d && a.is_available)).isSome

/-- The `available_clerks` list of jobs.py lines 101-115. -/
def eligibleClerks (today : DateT) (db : DB) (d : DateT) : List User :=
  (baseClerks today db d).filter (availOk today db d)

/-- Sort key used to model `order_by(Job.check_out_at.desc())`:
`descBefore a b` says a row with key `a` sorts no later than one with
key `b` (PostgreSQL puts NULLs first in descending order). -/
def descBefore : Option TimeT → Option TimeT → Bool
  | none, _ => true
  | some _, none => false
  | some x, some y => x ≥ y

/-- Query `Job.query.filter_by(property_id, status = completed)` ordered by
`check_out_at` descending, then `first()` (jobs.py lines 121-124). -/
def latestCompleted (jobs : List Job) (pid : PropId) : Option Job :=
  match jobs.filter (fun j => j.property_id == pid && j.status == JobStatus.completed) with
  | [] => none
  | x :: xs =>
    some (xs.foldl (fun b y => if descBefore b.check_out_at y.check_out_at then b else y) x)

/-- Count of jobs with `assigned_clerk_id == clerk.id` and status among
assigned, on_route, in_progress (jobs.py lines 158-161). -/
def activeJobCount (db : DB) (cid : UserId) : Nat :=
  (db.jobs.filter (fun j =>
    j.assigned_clerk_id == some cid &&
    (j.status == JobStatus.assigned || j.status == JobStatus.on_route ||
     j.status == JobStatus.in_progress))).length

/-- Continuity bonus of jobs.py lines 131-133: +50 when the clerk was
assigned to `previous_job`. -/
def continuityScore (pj : Option Job) (clerk : User) : ℚ :=
  if (match pj with
      | some p => p.assigned_clerk_id == some clerk.id
      | none => false) then 50 else 0

/-- Distance score with postcode fallback, jobs.py lines 135-155:
the whole block is guarded by the property having truthy coordinates;
inside it, clerks with truthy live coordinates get the linear-decay
distance score, and otherwise (only for non-today dates) a +30 postcode
stem match against the availability row for that date. -/
def geoScore (dist : Dist) (today : DateT) (db : DB) (job : Job)
    (prop : Property) (clerk : User) : ℚ :=
  let d := job.appointment_date
  if truthy prop.latitude && truthy prop.longitude then
    if truthy clerk.current_lat && truthy clerk.current_lng then
      pymax 0 (100 - dist (prop.latitude.getD 0) (prop.longitude.getD 0)
        (clerk.current_lat.getD 0) (clerk.current_lng.getD 0) * 10)
    else if !(d == today) then
      match db.avail.find? (fun a => a.user_id == clerk.id && a.available_date == d) with
      | some a =>
        if truthyS a.postcode then
          if (a.postcode.getD "").take 4 == prop.postcode.take 4 then 30 else 0
        else 0
      | none => 0
    else 0
  else 0

/-- Workload contribution of jobs.py lines 157-162. -/
def workloadScore (db : DB) (clerk : User) : ℚ :=
  pymax 0 (20 - (activeJobCount db clerk.id : ℚ))

/-- Per-clerk score of jobs.py lines 128-162 (`score = 0` then three
`score +=` blocks).  `pj` is the `previous_job` computed once before
the loop. -/
def scoreClerk (dist : Dist) (today : DateT) (db : DB) (job : Job)
    (prop : Property) (pj : Option Job) (clerk : User) : ℚ :=
  continuityScore pj clerk + geoScore dist today db job prop clerk +
    workloadScore db clerk

/-- One step of the stable descending sort: insert `x` before the
first element whose score it is ≥ (equal scores keep original order). -/
def insertDesc (x : UserId × ℚ) : List (UserId × ℚ) → List (UserId × ℚ)
  | [] => [x]
  | y :: ys => if x.2 ≥ y.2 then x :: y :: ys else y :: insertDesc x ys

/-- Model of `clerk_scores.sort(key = score, reverse = True)`:
stable sort, descending by score. -/
def sortDesc : List (UserId × ℚ) → List (UserId × ℚ)
  | [] => []
  | x :: xs => insertDesc x (sortDesc xs)

/-- Function `auto_assign_job(job, property_obj)` (jobs.py lines 83-171):
resolve the pool, score every candidate, return the id of the
highest-scoring clerk (or `none`). -/
def autoAssignJob (dist : Dist) (today : DateT) (db : DB) (job : Job)
    (prop : Property) : Option UserId :=
  let d := job.appointment_date
  if (baseClerks today db d).isEmpty then none
  else
    let pool := eligibleClerks today db d
    if pool.isEmpty then none
    else
      let pj := latestCompleted db.jobs prop.id
      let clerk_scores := pool.map (fun u => (u.id, scoreClerk dist today db job prop pj u))
      if clerk_scores.isEmpty then none
      else
        match sortDesc clerk_scores with
        | [] => none
        | best :: _ => some best.1

/-- Payload of `POST /jobs/` restricted to the fields the claims are
about; remaining body fields (priority, notes, ...) do not influence
assignment, status or logging. -/
structure CreatePayload where
  property_id : PropId
  appointment_date : DateT
  assignment_type : String
  clerk_id : Option UserId
  reason : Option String
deriving DecidableEq

/-- Fresh job row as built by `create_job` (jobs.py lines 196-209):
status defaults to `pending_assignment`, no clerk assigned. -/
def newJob (new_id : JobId) (p : CreatePayload) : Job :=
  { id := new_id
    property_id := p.property_id
    assigned_clerk_id := none
    status := JobStatus.pending_assignment
    appointment_date := p.appointment_date
    on_route_at := none
    check_in_at := none
    check_in_lat := none
    check_in_lng := none
    location_warning_flag := false
    check_out_at := none
    check_out_lat := none
    check_out_lng := none }

/-- Route `create_job` (jobs.py lines 173-258).  `new_id` is the id minted by
`db.session.flush()`.  An `Except.error` models an error response after
`db.session.rollback()` (the flushed job row is discarded). -/
def createJobOp (dist : Dist) (today : DateT) (db : DB) (new_id : JobId)
    (p : CreatePayload) : Except ApiError DB :=
  match getProp db p.property_id with
  | none => Except.error ApiError.notFound
  | some prop =>
    let job := newJob new_id p
    let db1 : DB := { db with jobs := db.jobs ++ [job] }
    if p.assignment_type == "auto" then
      match autoAssignJob dist today db1 job prop with
      | some clerk_id =>
        let job1 := { job with assigned_clerk_id := some clerk_id,
                               status := JobStatus.assigned }
        Except.ok (db_add_log (db_update_job db1 job1)
          { job_id := job.id
            previous_clerk_id := job.assigned_clerk_id
            new_clerk_id := some clerk_id
            action_type := ActionType.AUTO_ASSIGN
            triggered_by_user_id := none
            reason := "Auto-assigned by system based on availability and location" })
      | none => Except.ok db1
    else if p.assignment_type == "manual" then
      match p.clerk_id with
      | some cid =>
        if (db.users.find? (fun u =>
              u.id == cid && u.role == Role.clerk && u.is_active)).isSome then
          let job1 := { job with assigned_clerk_id := some cid,
                                 status := JobStatus.assigned }
          Except.ok (db_add_log (db_update_job db1 job1)
            { job_id := job.id
              previous_clerk_id := job.assigned_clerk_id
              new_clerk_id := some cid
              action_type := ActionType.MANUAL_OVERRIDE
              triggered_by_user_id := none
              reason := p.reason.getD "Manual assignment during job creation" })
        else Except.error ApiError.invalidClerk
      | none => Except.ok db1
    else Except.ok db1

/-- Payload of `PUT /jobs/<id>` restricted to the fields relevant to the
claims; an outer `none` means the key is absent from the request body.
The remaining updatable fields are independent of assignment and
logging. -/
structure UpdatePayload where
  status : Option JobStatus
  assigned_clerk_id : Option (Option UserId)
deriving DecidableEq

/-- Route `update_job` (jobs.py lines 260-282): blindly writes any
updatable field present in the body and commits, writing no log. -/
def updateJobOp (db : DB) (job_id : JobId) (p : UpdatePayload) :
    Except ApiError DB :=
  match getJob db job_id with
  | none => Except.error ApiError.notFound
  | some job =>
    let job1 := match p.status with
      | some s => { job with status := s }
      | none => job
    let job2 := match p.assigned_clerk_id with
      | some c => { job1 with assigned_clerk_id := c }
      | none => job1
    Except.ok (db_update_job db job2)

/-- Route `assign_job` (jobs.py lines 284-308): sets the clerk and status
with no validation of the clerk id, and logs a MANUAL_OVERRIDE. -/
def assignJobOp (db : DB) (job_id : JobId) (clerk_id : Option UserId)
    (reason : Option String) : Except ApiError DB :=
  match getJob db job_id with
  | none => Except.error ApiError.notFound
  | some job =>
    let job1 := { job with assigned_clerk_id := clerk_id,
                           status := JobStatus.assigned }
    Except.ok (db_add_log (db_update_job db job1)
      { job_id := job.id
        previous_clerk_id := job.assigned_clerk_id
        new_clerk_id := clerk_id
        action_type := ActionType.MANUAL_OVERRIDE
        triggered_by_user_id := none
        reason := reason.getD "Admin manual assignment" })

/-- Route `start_job` (jobs.py lines 310-319): unconditionally moves the job
to `on_route` and stamps `on_route_at`. -/
def startJobOp (now : TimeT) (db : DB) (job_id : JobId) :
    Except ApiError DB :=
  match getJob db job_id with
  | none => Except.error ApiError.notFound
  | some job =>
    Except.ok (db_update_job db
      { job with status := JobStatus.on_route, on_route_at := some now })

/-- Route `check_in` (jobs.py lines 321-347): records coordinates and
timestamp, moves to `in_progress`, and runs the geofence check only
when the property and the submitted coordinates are all truthy. -/
def checkInOp (dist : Dist) (now : TimeT) (db : DB) (job_id : JobId)
    (lat lng : Option ℚ) : Except ApiError DB :=
  match getJob db job_id with
  | none => Except.error ApiError.notFound
  | some job =>
    let job1 := { job with check_in_at := some now,
                           check_in_lat := lat,
                           check_in_lng := lng,
                           status := JobStatus.in_progress }
    let job2 :=
      match getProp db job.property_id with
      | some p =>
        if truthy p.latitude && truthy p.longitude then
          if truthy job1.check_in_lat && truthy job1.check_in_lng then
            let d := dist (p.latitude.getD 0) (p.longitude.getD 0)
              (job1.check_in_lat.getD 0) (job1.check_in_lng.getD 0)
            { job1 with location_warning_flag := decide (d > 1/10) }
          else job1
        else job1
      | none => job1
    Except.ok (db_update_job db job2)

/-- Route `reject_job` (jobs.py lines 349-397).  `caller` is the user row
resolved from the authenticated `cognito_sub` (`none` when no such
user).  Only the currently assigned clerk may reject; the job is
unassigned, a REJECTION is logged, then auto-reassignment is attempted
on the mutated store. -/
def rejectJobOp (dist : Dist) (today : DateT) (db : DB)
    (caller : Option UserId) (job_id : JobId) : Except ApiError DB :=
  match getJob db job_id with
  | none => Except.error ApiError.notFound
  | some job =>
    match caller with
    | none => Except.error ApiError.unauthorized
    | some uid =>
      if !(job.assigned_clerk_id == some uid) then
        Except.error ApiError.unauthorized
      else
        let job1 := { job with assigned_clerk_id := none,
                               status := JobStatus.pending_assignment }
        let db1 := db_add_log (db_update_job db job1)
          { job_id := job.id
            previous_clerk_id := job.assigned_clerk_id
            new_clerk_id := none
            action_type := ActionType.REJECTION
            triggered_by_user_id := some uid
            reason := "Clerk rejected assignment" }
        match getProp db job.property_id with
        | some prop =>
          match autoAssignJob dist today db1 job1 prop with
          | some nc =>
            Except.ok (db_add_log (db_update_job db1
              { job1 with assigned_clerk_id := some nc,
                          status := JobStatus.assigned })
              { job_id := job.id
                previous_clerk_id := none
                new_clerk_id := some nc
                action_type := ActionType.AUTO_ASSIGN
                triggered_by_user_id := none
                reason := "Auto-reassigned after rejection" })
          | none => Except.ok db1
        | none => Except.ok db1

/-- Route `complete_job` (jobs.py lines 399-419): unconditionally moves to
`completed`, stamping check-out time and coordinates (handover-data
translation is glue outside these claims). -/
def completeJobOp (now : TimeT) (db : DB) (job_id : JobId)
    (lat lng : Option ℚ) : Except ApiError DB :=
  match getJob db job_id with
  | none => Except.error ApiError.notFound
  | some job =>
    Except.ok (db_update_job db
      { job with status := JobStatus.completed,
                 check_out_at := some now,
                 check_out_lat := lat,
                 check_out_lng := lng })

/-- Left-biased strict pick: the later element wins only when strictly better. -/
def pick (b y : UserId × ℚ) : UserId × ℚ := if y.2 > b.2 then y else b

/-- The element `clerk_scores[0]` after the stable descending sort:
fold of `pick` over the tail, starting from the head. -/
def bestFrom (x : UserId × ℚ) (xs : List (UserId × ℚ)) : UserId × ℚ :=
  xs.foldl pick x

/-- The postcode on the clerk availability row the scoring fallback reads
(first row for that clerk and date, `is_available` not filtered). -/
def availPostcode (db : DB) (cid : UserId) (d : DateT) : Option String :=
  (db.avail.find? (fun a => a.user_id == cid && a.available_date == d)).bind
    (fun a => a.postcode)

/-- Distance-or-postcode component exactly as claim C1 words it: distance
when BOTH property and clerk have (non-null) coordinates, otherwise the
+30 postcode fallback whenever the job is future-dated and the 4-char
postcode stems agree. -/
def c1ClaimGeo (dist : Dist) (today : DateT) (db : DB) (job : Job)
    (prop : Property) (clerk : User) : ℚ :=
  if prop.latitude.isSome && prop.longitude.isSome &&
     clerk.current_lat.isSome && clerk.current_lng.isSome then
    max 0 (100 - 10 * dist (prop.latitude.getD 0) (prop.longitude.getD 0)
      (clerk.current_lat.getD 0) (clerk.current_lng.getD 0))
  else if decide (job.appointment_date > today) &&
      (match availPostcode db clerk.id job.appointment_date with
       | some pc => pc.take 4 == prop.postcode.take 4
       | none => false) then 30
  else 0

/-- Total score exactly as claim C1 words it. -/
def c1ClaimScore (dist : Dist) (today : DateT) (db : DB) (job : Job)
    (prop : Property) (clerk : User) : ℚ :=
  (if (latestCompleted db.jobs prop.id).bind Job.assigned_clerk_id == some clerk.id
   then 50 else 0)
  + c1ClaimGeo dist today db job prop clerk
  + max 0 (20 - (activeJobCount db clerk.id : ℚ))

/-- Distance-or-postcode component as amended: the postcode fallback
fires only when the property has (truthy) coordinates, the clerk lacks
them, the appointment date is not today, and the clerk has a non-empty
availability postcode whose 4-char stem matches. -/
def c1AmendedGeo (dist : Dist) (today : DateT) (db : DB) (job : Job)
    (prop : Property) (clerk : User) : ℚ :=
  if truthy prop.latitude && truthy prop.longitude then
    if truthy clerk.current_lat && truthy clerk.current_lng then
      max 0 (100 - 10 * dist (prop.latitude.getD 0) (prop.longitude.getD 0)
        (clerk.current_lat.getD 0) (clerk.current_lng.getD 0))
    else if !(job.appointment_date == today) &&
        (match availPostcode db clerk.id job.appointment_date with
         | some pc => !(pc == "") && (pc.take 4 == prop.postcode.take 4)
         | none => false) then 30
    else 0
  else 0

/-- Total score as amended claim C1 words it. -/
def c1AmendedScore (dist : Dist) (today : DateT) (db : DB) (job : Job)
    (prop : Property) (clerk : User) : ℚ :=
  (if (latestCompleted db.jobs prop.id).bind Job.assigned_clerk_id == some clerk.id
   then 50 else 0)
  + c1AmendedGeo dist today db job prop clerk
  + max 0 (20 - (activeJobCount db clerk.id : ℚ))

/-- The spec invariant of claim C5: a clerk is recorded iff the status
is one of the assigned-family states (pending_assignment additionally
allowed transiently with a clerk during reassignment). -/
def assignmentInvariant (j : Job) : Bool :=
  if j.assigned_clerk_id.isSome then
    (j.status == JobStatus.assigned || j.status == JobStatus.on_route ||
     j.status == JobStatus.in_progress || j.status == JobStatus.completed ||
     j.status == JobStatus.pending_assignment)
  else
    !(j.status == JobStatus.assigned || j.status == JobStatus.on_route ||
      j.status == JobStatus.in_progress || j.status == JobStatus.completed)

/-- Job row visible after an operation (`none` when the op errored or
the job does not exist). -/
def jobAfter (r : Except ApiError DB) (i : JobId) : Option Job :=
  match r with
  | Except.ok db => getJob db i
  | Except.error _ => none

/-- Log table visible after an operation. -/
def logsAfter (r : Except ApiError DB) : Option (List AssignmentLog) :=
  match r with
  | Except.ok db => some db.logs
  | Except.error _ => none

def d0 : Dist := fun _ _ la _ => if la == 51 then 2 else 8

def u1 : User := ⟨1, Role.clerk, true, true, some 51, some 1⟩

def u2 : User := ⟨2, Role.clerk, true, true, some 52, some 1⟩

def p0 : Property := ⟨7, "AB1 2CD", some 50, some 1⟩

def j0 : Job := ⟨10, 7, none, JobStatus.pending_assignment, 100, none, none, none, none, false, none, none, none⟩

def jActive (i : JobId) (c : UserId) : Job := ⟨i, 7, some c, JobStatus.assigned, 99, none, none, none, none, false, none, none, none⟩

def db0 : DB := ⟨[u1, u2], [p0], [], [j0, jActive 11 1, jActive 12 1, jActive 13 1, jActive 14 1, jActive 15 1], []⟩

def uX : User := ⟨3, Role.clerk, true, false, none, none⟩

def pX : Property := ⟨8, "AB1 2CD", none, none⟩

def jX : Job := ⟨20, 8, none, JobStatus.pending_assignment, 105, none, none, none, none, false, none, none, none⟩

def dbX : DB := ⟨[uX], [pX], [⟨3, 105, true, some "AB1 9ZZ"⟩], [jX], []⟩

def dbTie : DB := ⟨[u1, u2], [p0], [], [j0], []⟩

def dTie : Dist := fun _ _ _ _ => 20

def uZ : User := ⟨4, Role.clerk, true, true, some 0, some 1⟩

def dbZ : DB := ⟨[uZ], [], [], [], []⟩

def dist5 : Dist := fun _ _ _ _ => 5

def uC : User := ⟨5, Role.clerk, true, true, some 51, some 1⟩

def jDone : Job := ⟨1, 7, some 5, JobStatus.completed, 90, some 10, some 11,
  some 3, some 4, false, some 12, some 3, some 4⟩

def dbS : DB := ⟨[uC], [p0], [], [jDone], []⟩

def jPend : Job := ⟨1, 7, none, JobStatus.pending_assignment, 100, none, none,
  none, none, false, none, none, none⟩

def dbP : DB := ⟨[uC], [p0], [], [jPend], []⟩

def jAss : Job := ⟨1, 7, some 5, JobStatus.assigned, 100, none, none,
  none, none, false, none, none, none⟩

def dbA : DB := ⟨[uC], [p0], [], [jAss],
  [⟨1, none, some 5, ActionType.AUTO_ASSIGN, none, "seed"⟩]⟩

def uR5 : User := ⟨5, Role.clerk, true, false, some 51, some 1⟩

def dbR : DB := ⟨[uR5, u1], [p0], [], [jAss], []⟩

def dist15 : Dist := fun _ _ _ _ => 15/100

def dist05 : Dist := fun _ _ _ _ => 5/100

def pZ9 : Property := ⟨9, "AB1 2CD", some 0, some 1⟩

def jZ9 : Job := ⟨1, 9, none, JobStatus.pending_assignment, 100, none, none,
  none, none, false, none, none, none⟩

def dbZ9 : DB := ⟨[], [pZ9], [], [jZ9], []⟩

/-! ## Lemmas and claim theorems -/

theorem pick_assoc (a b c : UserId × ℚ) : pick (pick a b) c = pick a (pick b c) := by
  unfold pick
  split_ifs <;> first | rfl | (exfalso; linarith)

theorem bestFrom_pick (a b : UserId × ℚ) (xs : List (UserId × ℚ)) :
    bestFrom (pick a b) xs = pick a (bestFrom b xs) := by
  induction xs generalizing a b with
  | nil => rfl
  | cons c cs ih =>
    show bestFrom (pick (pick a b) c) cs = pick a (bestFrom (pick b c) cs)
    rw [pick_assoc, ih]

theorem bestFrom_mem (x : UserId × ℚ) (xs : List (UserId × ℚ)) :
    bestFrom x xs ∈ x :: xs := by
  induction xs generalizing x with
  | nil => simp [bestFrom]
  | cons y ys ih =>
    show bestFrom (pick x y) ys ∈ x :: y :: ys
    have h := ih (pick x y)
    rcases List.mem_cons.mp h with h1 | h1
    · rw [h1]; unfold pick; split <;> simp
    · simp [h1]

theorem bestFrom_ge (x : UserId × ℚ) (xs : List (UserId × ℚ)) :
    ∀ y ∈ x :: xs, y.2 ≤ (bestFrom x xs).2 := by
  induction xs generalizing x with
  | nil => intro y hy; simp at hy; simp [bestFrom, hy]
  | cons z zs ih =>
    intro y hy
    have hstep : ∀ w ∈ x :: z :: zs, w ∈ pick x z :: zs ∨ w.2 ≤ (pick x z).2 := by
      intro w hw
      rcases List.mem_cons.mp hw with h1 | h1
      · subst h1
        unfold pick; split
        · rename_i hgt; right; simpa using le_of_lt hgt
        · left; simp
      · rcases List.mem_cons.mp h1 with h2 | h2
        · subst h2
          unfold pick; split
          · left; simp
          · rename_i hgt; right; simpa using le_of_not_lt hgt
        · left; simp [h2]
    have hbase : (pick x z).2 ≤ (bestFrom (pick x z) zs).2 :=
      ih (pick x z) (pick x z) (by simp)
    rcases hstep y hy with h1 | h1
    · exact ih (pick x z) y h1
    · calc y.2 ≤ (pick x z).2 := h1
        _ ≤ _ := hbase

theorem bestFrom_split (xs : List (UserId × ℚ)) (x : UserId × ℚ) :
    ∃ l1 l2, x :: xs = l1 ++ bestFrom x xs :: l2 ∧
      ∀ y ∈ l1, y.2 < (bestFrom x xs).2 := by
  induction xs generalizing x with
  | nil => exact ⟨[], [], rfl, by simp⟩
  | cons y ys ih =>
    have hcons : bestFrom x (y :: ys) = bestFrom (pick x y) ys := rfl
    rcases ih (pick x y) with ⟨l1, l2, heq, hlt⟩
    by_cases hxy : y.2 > x.2
    · have hp : pick x y = y := by unfold pick; simp [hxy]
      rw [hp] at heq hlt
      refine ⟨x :: l1, l2, ?_, ?_⟩
      · rw [hcons, hp, List.cons_append, ← heq]
      · intro w hw
        rw [hcons, hp]
        rcases List.mem_cons.mp hw with h1 | h1
        · have hy2 : y.2 ≤ (bestFrom y ys).2 := bestFrom_ge y ys y (by simp)
          rw [h1]; linarith
        · exact hlt w h1
    · have hp : pick x y = x := by unfold pick; simp [hxy]
      rw [hp] at heq hlt
      cases l1 with
      | nil =>
        simp at heq
        refine ⟨[], y :: ys, ?_, by simp⟩
        rw [hcons, hp, ← heq.1]
        rfl
      | cons a t =>
        have ha : a = x := by
          have h2 := congrArg List.head? heq
          simp at h2
          exact h2.symm
        rw [ha] at heq hlt
        have htail : ys = t ++ bestFrom x ys :: l2 := by
          have h3 := congrArg List.tail heq
          simpa using h3
        refine ⟨x :: y :: t, l2, ?_, ?_⟩
        · rw [hcons, hp, List.cons_append, List.cons_append, ← htail]
        · intro w hw
          have hxlt : x.2 < (bestFrom x ys).2 := hlt x (by simp)
          rw [hcons, hp]
          rcases List.mem_cons.mp hw with h1 | h1
          · rw [h1]; exact hxlt
          · rcases List.mem_cons.mp h1 with h2 | h2
            · rw [h2]; push_neg at hxy; linarith
            · exact hlt w (by simp [h2])

theorem insertDesc_head (x : UserId × ℚ) (s : List (UserId × ℚ)) :
    (insertDesc x s).head? =
      some (match s with
            | [] => x
            | y :: _ => if x.2 ≥ y.2 then x else y) := by
  cases s with
  | nil => rfl
  | cons y ys =>
    show (if x.2 ≥ y.2 then x :: y :: ys else y :: insertDesc x ys).head? = _
    split
    · rename_i h; simp [h]
    · rename_i h; simp [h]

theorem sortDesc_head (l : List (UserId × ℚ)) :
    (sortDesc l).head? =
      match l with
      | [] => none
      | x :: xs => some (bestFrom x xs) := by
  induction l with
  | nil => rfl
  | cons x xs ih =>
    show (insertDesc x (sortDesc xs)).head? = some (bestFrom x xs)
    rw [insertDesc_head]
    cases hs : sortDesc xs with
    | nil =>
      cases xs with
      | nil => rfl
      | cons a as => rw [hs] at ih; simp at ih
    | cons y ys =>
      rw [hs] at ih
      cases xs with
      | nil => simp at ih
      | cons a as =>
        simp at ih
        have hpick : bestFrom x (a :: as) = pick x (bestFrom a as) := by
          show bestFrom (pick x a) as = _
          rw [bestFrom_pick]
        rw [hpick, ← ih]
        show some (if x.2 ≥ y.2 then x else y) = some (pick x y)
        unfold pick
        split_ifs <;> first | rfl | (exfalso; linarith)

theorem pymax_eq_max (a b : ℚ) : pymax a b = max a b := by
  unfold pymax
  split_ifs with h
  · exact (max_eq_right h.le).symm
  · exact (max_eq_left (not_lt.mp h)).symm

theorem sortDesc_first (l : List (UserId × ℚ)) :
    (match sortDesc l with
     | [] => (none : Option UserId)
     | best :: _ => some best.1) =
      (match l with
       | [] => none
       | x :: xs => some (bestFrom x xs).1) := by
  cases l with
  | nil => rfl
  | cons x xs =>
    have h := sortDesc_head (x :: xs)
    cases hs : sortDesc (x :: xs) with
    | nil => rw [hs] at h; simp at h
    | cons b bs =>
      rw [hs] at h
      simp at h
      simp [h]

theorem autoAssignJob_char (dist : Dist) (today : DateT) (db : DB)
    (job : Job) (prop : Property) :
    autoAssignJob dist today db job prop =
      (match (eligibleClerks today db job.appointment_date).map
          (fun u => (u.id, scoreClerk dist today db job prop
            (latestCompleted db.jobs prop.id) u)) with
       | [] => none
       | x :: xs => some (bestFrom x xs).1) := by
  unfold autoAssignJob
  by_cases hb : (baseClerks today db job.appointment_date).isEmpty
  · have hpool : eligibleClerks today db job.appointment_date = [] := by
      unfold eligibleClerks
      have : baseClerks today db job.appointment_date = [] := by
        cases hbb : baseClerks today db job.appointment_date
        · rfl
        · rw [hbb] at hb; simp at hb
      rw [this]; rfl
    simp [hb, hpool]
  · simp only [hb, if_false, Bool.false_eq_true]
    cases hp : eligibleClerks today db job.appointment_date with
    | nil => simp
    | cons u us =>
      have hne : ((u :: us).map (fun u => (u.id, scoreClerk dist today db job prop
          (latestCompleted db.jobs prop.id) u))).isEmpty = false := by simp
      simp only [List.isEmpty_cons, if_false, hne, Bool.false_eq_true]
      exact sortDesc_first _

theorem find?_update_job (l : List Job) (i : JobId) (j j' : Job)
    (h : l.find? (fun x => x.id == i) = some j) (hid : j'.id = i) :
    (l.map (fun x => if x.id == j'.id then j' else x)).find? (fun x => x.id == i) = some j' := by
  induction l with
  | nil => simp at h
  | cons a as ih =>
    by_cases ha : a.id = i
    · have : (if a.id == j'.id then j' else a) = j' := by simp [ha, hid]
      simp only [List.map_cons, this]
      simp [hid]
    · have hne : (a.id == i) = false := by simp [ha]
      rw [List.find?_cons_of_neg _ (by simp [ha])] at h
      have : (if a.id == j'.id then j' else a) = a := by
        have : a.id ≠ j'.id := by rw [hid]; exact ha
        simp [this]
      simp only [List.map_cons, this]
      rw [List.find?_cons_of_neg _ (by simp [ha])]
      exact ih h

theorem getJob_update (db : DB) (i : JobId) (j j' : Job)
    (h : getJob db i = some j) (hid : j'.id = i) :
    getJob (db_update_job db j') i = some j' :=
  find?_update_job db.jobs i j j' h hid

theorem getJob_id (db : DB) (i : JobId) (j : Job) (h : getJob db i = some j) :
    j.id = i := by
  unfold getJob at h
  have := List.find?_some h
  simpa using this

theorem getJob_add_log (db : DB) (l : AssignmentLog) (i : JobId) :
    getJob (db_add_log db l) i = getJob db i := rfl

theorem db_update_job_logs (db : DB) (j : Job) :
    (db_update_job db j).logs = db.logs := rfl

theorem db_add_log_logs (db : DB) (l : AssignmentLog) :
    (db_add_log db l).logs = db.logs ++ [l] := rfl

theorem continuityScore_eq (pj : Option Job) (clerk : User) :
    continuityScore pj clerk =
      (if pj.bind Job.assigned_clerk_id == some clerk.id then (50 : ℚ) else 0) := by
  cases pj <;> rfl

theorem fallback_eq (o : Option ClerkAvailability) (pcP : String) (b : Bool) :
    (if b then
      (match o with
       | some a =>
         if truthyS a.postcode then
           if (a.postcode.getD "").take 4 == pcP.take 4 then (30 : ℚ) else (0 : ℚ)
         else (0 : ℚ)
       | none => (0 : ℚ))
     else (0 : ℚ)) =
      (if (b && match o.bind (fun a => a.postcode) with
                | some pc => !(pc == "") && (pc.take 4 == pcP.take 4)
                | none => false) then (30 : ℚ) else (0 : ℚ)) := by
  cases b with
  | false => simp
  | true =>
    simp only [Bool.true_and, if_true]
    cases o with
    | none => simp
    | some a =>
      cases hpost : a.postcode with
      | none => simp [truthyS, hpost]
      | some pc =>
        by_cases hemp : (pc == "") = true
        · simp [truthyS, hpost, hemp]
        · have hemp2 : (pc == "") = false := by simpa using hemp
          by_cases htake : ((pc.take 4) == pcP.take 4) = true
          · simp [truthyS, hpost, hemp2, htake]
          · have htake2 : ((pc.take 4) == pcP.take 4) = false := by simpa using htake
            simp [truthyS, hpost, hemp2, htake2]

theorem geoScore_eq_amended (dist : Dist) (today : DateT) (db : DB)
    (job : Job) (prop : Property) (clerk : User) :
    geoScore dist today db job prop clerk =
      c1AmendedGeo dist today db job prop clerk := by
  simp only [geoScore, c1AmendedGeo, availPostcode]
  by_cases hpc : (truthy prop.latitude && truthy prop.longitude) = true
  · rw [if_pos hpc, if_pos hpc]
    by_cases hcc : (truthy clerk.current_lat && truthy clerk.current_lng) = true
    · rw [if_pos hcc, if_pos hcc, pymax_eq_max]
      congr 1
      ring
    · rw [if_neg hcc, if_neg hcc]
      exact fallback_eq _ _ _
  · rw [if_neg hpc, if_neg hpc]

theorem scoreClerk_eq_amended (dist : Dist) (today : DateT) (db : DB)
    (job : Job) (prop : Property) (clerk : User) :
    scoreClerk dist today db job prop (latestCompleted db.jobs prop.id) clerk =
      c1AmendedScore dist today db job prop clerk := by
  unfold scoreClerk c1AmendedScore workloadScore
  rw [continuityScore_eq, geoScore_eq_amended, pymax_eq_max]

theorem autoAssign_maximal (dist : Dist) (today : DateT) (db : DB)
    (job : Job) (prop : Property) (c : UserId)
    (h : autoAssignJob dist today db job prop = some c) :
    ∃ u ∈ eligibleClerks today db job.appointment_date, u.id = c ∧
      ∀ v ∈ eligibleClerks today db job.appointment_date,
        scoreClerk dist today db job prop (latestCompleted db.jobs prop.id) v ≤
          scoreClerk dist today db job prop (latestCompleted db.jobs prop.id) u := by
  rw [autoAssignJob_char] at h
  cases hp : eligibleClerks today db job.appointment_date with
  | nil => rw [hp] at h; simp at h
  | cons u us =>
    rw [hp] at h
    simp only [List.map_cons] at h
    have hbest : (bestFrom (u.id, scoreClerk dist today db job prop
        (latestCompleted db.jobs prop.id) u)
        (us.map (fun v => (v.id, scoreClerk dist today db job prop
          (latestCompleted db.jobs prop.id) v)))).1 = c := by
      simpa using h
    set f := fun v : User => (v.id, scoreClerk dist today db job prop
      (latestCompleted db.jobs prop.id) v) with hf
    have hmem : bestFrom (f u) (us.map f) ∈ f u :: us.map f := bestFrom_mem _ _
    have hmap : f u :: us.map f = (u :: us).map f := by simp
    rw [hmap] at hmem
    rcases List.mem_map.mp hmem with ⟨w, hw, hwf⟩
    refine ⟨w, hw, ?_, ?_⟩
    · rw [← hbest, ← hwf]
    · intro v hv
      have hv2 : f v ∈ f u :: us.map f := by
        rw [hmap]
        exact List.mem_map.mpr ⟨v, hv, rfl⟩
      have := bestFrom_ge (f u) (us.map f) (f v) hv2
      rw [← hwf] at this
      exact this

theorem find?_isSome_iff {α : Type} (l : List α) (p : α → Bool) :
    (l.find? p).isSome = true ↔ ∃ x ∈ l, p x = true := by
  induction l with
  | nil => simp
  | cons a as ih =>
    by_cases pa : p a = true
    · simp [List.find?_cons, pa]
    · have pa2 : p a = false := by simpa using pa
      simp [List.find?_cons, pa2, ih]

-- C2 fixtures

theorem find?_append_right {α : Type} (l1 l2 : List α) (p : α → Bool)
    (h : l1.find? p = none) : (l1 ++ l2).find? p = l2.find? p := by
  induction l1 with
  | nil => rfl
  | cons a as ih =>
    by_cases pa : p a = true
    · rw [List.find?_cons_of_pos _ pa] at h
      cases h
    · have pa2 : p a = false := by simpa using pa
      rw [List.find?_cons_of_neg _ (by simp [pa2])] at h
      rw [List.cons_append, List.find?_cons_of_neg _ (by simp [pa2])]
      exact ih h

theorem getJob_append_fresh (db : DB) (jb : Job) (nid : JobId)
    (h : getJob db nid = none) (hid : jb.id = nid) :
    getJob { db with jobs := db.jobs ++ [jb] } nid = some jb := by
  unfold getJob at h ⊢
  rw [find?_append_right _ _ _ h]
  simp [List.find?_cons, hid]

/-- Characterization of a successful rejection: the caller is the
assigned clerk, the job is unassigned with a REJECTION entry, and then
either auto-reassignment fails (one new entry) or succeeds (a second
AUTO_ASSIGN entry and the job assigned to the new clerk). -/
theorem rejectJobOp_spec (dist : Dist) (today : DateT) (db : DB)
    (caller : Option UserId) (i : JobId) (db2 : DB)
    (h : rejectJobOp dist today db caller i = Except.ok db2) :
    ∃ j uid, getJob db i = some j ∧ caller = some uid ∧
      j.assigned_clerk_id = some uid ∧
      ((db2 = db_add_log (db_update_job db
          { j with assigned_clerk_id := none,
                   status := JobStatus.pending_assignment })
          ⟨j.id, j.assigned_clerk_id, none, ActionType.REJECTION, some uid,
            "Clerk rejected assignment"⟩ ∧
        (getProp db j.property_id = none ∨
         ∃ p, getProp db j.property_id = some p ∧
           autoAssignJob dist today
             (db_add_log (db_update_job db
               { j with assigned_clerk_id := none,
                        status := JobStatus.pending_assignment })
               ⟨j.id, j.assigned_clerk_id, none, ActionType.REJECTION, some uid,
                 "Clerk rejected assignment"⟩)
             { j with assigned_clerk_id := none,
                      status := JobStatus.pending_assignment } p = none)) ∨
       (∃ p nc, getProp db j.property_id = some p ∧
          autoAssignJob dist today
            (db_add_log (db_update_job db
              { j with assigned_clerk_id := none,
                       status := JobStatus.pending_assignment })
              ⟨j.id, j.assigned_clerk_id, none, ActionType.REJECTION, some uid,
                "Clerk rejected assignment"⟩)
            { j with assigned_clerk_id := none,
                     status := JobStatus.pending_assignment } p = some nc ∧
          db2 = db_add_log (db_update_job
            (db_add_log (db_update_job db
              { j with assigned_clerk_id := none,
                       status := JobStatus.pending_assignment })
              ⟨j.id, j.assigned_clerk_id, none, ActionType.REJECTION, some uid,
                "Clerk rejected assignment"⟩)
            { j with assigned_clerk_id := some nc,
                     status := JobStatus.assigned })
            ⟨j.id, none, some nc, ActionType.AUTO_ASSIGN, none,
              "Auto-reassigned after rejection"⟩)) := by
  unfold rejectJobOp at h
  cases hj : getJob db i with
  | none => rw [hj] at h; exact absurd h (by simp)
  | some j =>
    rw [hj] at h
    cases hc : caller with
    | none => rw [hc] at h; exact absurd h (by simp)
    | some uid =>
      rw [hc] at h
      simp only [] at h
      by_cases ha : (j.assigned_clerk_id == some uid) = true
      · simp only [ha, Bool.not_true, Bool.false_eq_true, if_false] at h
        refine ⟨j, uid, rfl, rfl, by simpa using ha, ?_⟩
        cases hp : getProp db j.property_id with
        | none =>
          rw [hp] at h
          simp only [Except.ok.injEq] at h
          exact Or.inl ⟨h.symm, Or.inl rfl⟩
        | some p =>
          rw [hp] at h
          simp only [] at h
          cases hauto : autoAssignJob dist today
              (db_add_log (db_update_job db
                { j with assigned_clerk_id := none,
                         status := JobStatus.pending_assignment })
                ⟨j.id, j.assigned_clerk_id, none, ActionType.REJECTION, some uid,
                  "Clerk rejected assignment"⟩)
              { j with assigned_clerk_id := none,
                       status := JobStatus.pending_assignment } p with
          | none =>
            rw [hauto] at h
            simp only [Except.ok.injEq] at h
            exact Or.inl ⟨h.symm, Or.inr ⟨p, rfl, hauto⟩⟩
          | some nc =>
            rw [hauto] at h
            simp only [] at h
            simp only [Except.ok.injEq] at h
            exact Or.inr ⟨p, nc, rfl, hauto, h.symm⟩
      · have ha2 : (j.assigned_clerk_id == some uid) = false := by simpa using ha
        simp only [ha2, Bool.not_false, if_true] at h
        exact absurd h (by simp)

theorem rejectJobOp_unauthorized (dist : Dist) (today : DateT) (db : DB)
    (caller : Option UserId) (i : JobId) (j : Job)
    (hj : getJob db i = some j)
    (h : caller = none ∨ caller ≠ j.assigned_clerk_id) :
    rejectJobOp dist today db caller i = Except.error ApiError.unauthorized := by
  unfold rejectJobOp
  rw [hj]
  cases hc : caller with
  | none => rfl
  | some uid =>
    have h2 : some uid ≠ j.assigned_clerk_id := by
      rcases h with h | h
      · rw [hc] at h; cases h
      · rw [hc] at h; exact h
    have hne : (j.assigned_clerk_id == some uid) = false := by
      cases hje : j.assigned_clerk_id with
      | none => rfl
      | some v =>
        rw [hje] at h2
        have hv : ¬(v = uid) := by
          intro he
          exact h2 (by rw [he])
        simpa using hv
    simp only [hne, Bool.not_false]
    rfl

/-- Claim C1 (amended): the score of each candidate is the sum of the
continuity bonus, the distance-or-postcode component (with the
postcode fallback additionally requiring the property to have truthy
coordinates and a non-empty availability postcode, on a non-today
date), and the workload contribution; and the engine returns a
candidate with the highest total score. -/
theorem C1_thm :
    ∀ (dist : Dist) (today : DateT) (db : DB) (job : Job) (prop : Property),
      (∀ clerk : User,
        scoreClerk dist today db job prop (latestCompleted db.jobs prop.id) clerk =
          c1AmendedScore dist today db job prop clerk) ∧
      (∀ c : UserId, autoAssignJob dist today db job prop = some c →
        ∃ u ∈ eligibleClerks today db job.appointment_date, u.id = c ∧
          ∀ v ∈ eligibleClerks today db job.appointment_date,
            scoreClerk dist today db job prop (latestCompleted db.jobs prop.id) v ≤
              scoreClerk dist today db job prop (latestCompleted db.jobs prop.id) u) := by
  intro dist today db job prop
  exact ⟨fun clerk => scoreClerk_eq_amended dist today db job prop clerk,
    fun c h => autoAssign_maximal dist today db job prop c h⟩

/-- Witness for C1 at Scenario B: the winning clerk 1 scores 95 ≥ 40. -/
theorem C1_wit :
    scoreClerk d0 100 db0 j0 p0 (latestCompleted db0.jobs p0.id) u1 =
      c1AmendedScore d0 100 db0 j0 p0 u1 ∧
    ∃ u ∈ eligibleClerks 100 db0 j0.appointment_date, u.id = 1 ∧
      ∀ v ∈ eligibleClerks 100 db0 j0.appointment_date,
        scoreClerk d0 100 db0 j0 p0 (latestCompleted db0.jobs p0.id) v ≤
          scoreClerk d0 100 db0 j0 p0 (latestCompleted db0.jobs p0.id) u := by
  obtain ⟨h1, h2⟩ := C1_thm d0 100 db0 j0 p0
  refine ⟨h1 u1, h2 1 ?_⟩
  simp +decide [autoAssignJob, eligibleClerks, baseClerks, availOk, scoreClerk,
    continuityScore, geoScore, workloadScore, sortDesc, insertDesc,
    latestCompleted, activeJobCount, truthy, pymax, descBefore, d0, db0, u1, u2, p0, j0, jActive,
    List.filter, List.foldl, List.find?]
  norm_num

/-- Claim C1 as literally stated is false: with a property that has no
coordinates, a future-dated job and a clerk whose availability postcode
stem matches, the claim formula awards the +30 fallback but the code
awards nothing. -/
theorem C1_cex :
    scoreClerk d0 100 dbX jX pX (latestCompleted dbX.jobs pX.id) uX ≠
      c1ClaimScore d0 100 dbX jX pX uX := by
  simp +decide [scoreClerk, continuityScore, geoScore, workloadScore, activeJobCount,
    c1ClaimScore, c1ClaimGeo, availPostcode, latestCompleted, truthy, truthyS, pymax,
    d0, dbX, jX, pX, uX, List.filter, List.find?]

/-- Claim C2 (amended): the candidate pool is exactly the active clerks
that, for a same-day job, are on shift with truthy (non-null, nonzero)
coordinates, and for any other date have an availability row for that
exact date with is_available. -/
theorem C2_thm :
    ∀ (today : DateT) (db : DB) (d : DateT) (u : User),
      u ∈ eligibleClerks today db d ↔
        (u ∈ db.users ∧ u.role = Role.clerk ∧ u.is_active = true ∧
          (if d = today then
            u.is_on_shift = true ∧ truthy u.current_lat = true ∧
              truthy u.current_lng = true
          else
            ∃ a ∈ db.avail, a.user_id = u.id ∧ a.available_date = d ∧
              a.is_available = true)) := by
  intro today db d u
  unfold eligibleClerks baseClerks availOk
  rw [List.mem_filter, List.mem_filter]
  by_cases hd : d = today
  · have hd2 : (d == today) = true := by simpa using hd
    simp only [hd2, if_true, if_pos hd]
    constructor
    · rintro ⟨⟨hu, hb⟩, ha⟩
      simp only [Bool.and_eq_true, beq_iff_eq] at hb ha
      exact ⟨hu, hb.1.1, hb.1.2, hb.2, ha.1, ha.2⟩
    · rintro ⟨hu, hrole, hact, hshift, hlat, hlng⟩
      refine ⟨⟨hu, ?_⟩, ?_⟩
      · simp [hrole, hact, hshift]
      · simp [hlat, hlng]
  · have hd2 : (d == today) = false := by simpa using hd
    simp only [hd2, if_neg hd, Bool.false_eq_true, if_false]
    constructor
    · rintro ⟨⟨hu, hb⟩, ha⟩
      simp only [Bool.and_eq_true, beq_iff_eq] at hb
      rw [find?_isSome_iff] at ha
      rcases ha with ⟨a, hamem, hap⟩
      simp only [Bool.and_eq_true, beq_iff_eq] at hap
      exact ⟨hu, hb.1.1, hb.1.2, a, hamem, hap.1.1, hap.1.2, hap.2⟩
    · rintro ⟨hu, hrole, hact, a, hamem, ha1, ha2, ha3⟩
      refine ⟨⟨hu, ?_⟩, ?_⟩
      · simp [hrole, hact]
      · rw [find?_isSome_iff]
        exact ⟨a, hamem, by simp [ha1, ha2, ha3]⟩

/-- Claim C2 as stated is false: a clerk whose stored latitude is
exactly 0 (non-null) is excluded from the same-day pool. -/
theorem C2_cex :
    uZ ∉ eligibleClerks 100 dbZ 100 ∧
    uZ ∈ dbZ.users ∧ uZ.role = Role.clerk ∧ uZ.is_active = true ∧
    uZ.is_on_shift = true ∧ uZ.current_lat.isSome = true ∧
    uZ.current_lng.isSome = true := by
  refine ⟨?_, by simp [dbZ, uZ], by simp [uZ], by simp [uZ], by simp [uZ],
    by simp [uZ], by simp [uZ]⟩
  simp +decide [eligibleClerks, baseClerks, availOk, truthy, dbZ, uZ, List.filter]

/-- Witness for C2: an on-shift clerk with truthy coordinates is in the
same-day pool. -/
theorem C2_wit : u1 ∈ eligibleClerks 100 db0 100 := by
  refine (C2_thm 100 db0 100 u1).mpr ⟨by simp [db0, u1], by simp [u1],
    by simp [u1], ?_⟩
  rw [if_pos rfl]
  refine ⟨by simp [u1], ?_, ?_⟩ <;> simp +decide [u1, truthy]

/-- Claim C3 is right and the code wrong: start, check-in and manual
assignment on a `completed` job all succeed and mutate it instead of
failing with a state conflict. -/
theorem C3_thm :
    (getJob dbS 1).map Job.status = some JobStatus.completed ∧
    (jobAfter (startJobOp 50 dbS 1) 1).map
      (fun j => (j.status, j.on_route_at)) =
        some (JobStatus.on_route, some 50) ∧
    (jobAfter (checkInOp dist5 50 dbS 1 (some 3) (some 4)) 1).map Job.status =
      some JobStatus.in_progress ∧
    (jobAfter (assignJobOp dbS 1 (some 5) none) 1).map Job.status =
      some JobStatus.assigned := by
  refine ⟨by simp +decide [getJob, dbS, jDone, uC], ?_, ?_, ?_⟩
  · simp +decide [startJobOp, jobAfter, getJob, db_update_job, dbS, jDone, uC]
  · simp +decide [checkInOp, jobAfter, getJob, getProp, db_update_job, truthy,
      dist5, dbS, jDone, uC, p0]
  · simp +decide [assignJobOp, jobAfter, getJob, db_update_job, db_add_log,
      dbS, jDone, uC]

/-- Claim C4 is right and the code wrong: the dedicated assign endpoint
never checks the clerk id; assigning a non-existent clerk 99 succeeds,
mutates the job and writes a MANUAL_OVERRIDE log entry. -/
theorem C4_thm :
    (dbS.users.find? (fun u => u.id == 99)).isSome = false ∧
    (jobAfter (assignJobOp dbS 1 (some 99) none) 1).map
      (fun j => (j.assigned_clerk_id, j.status)) =
        some (some 99, JobStatus.assigned) ∧
    logsAfter (assignJobOp dbS 1 (some 99) none) =
      some (dbS.logs ++ [⟨1, some 5, some 99, ActionType.MANUAL_OVERRIDE, none,
        "Admin manual assignment"⟩]) := by
  refine ⟨by simp +decide [dbS, uC], ?_, ?_⟩
  · simp +decide [assignJobOp, jobAfter, getJob, db_update_job, db_add_log,
      dbS, jDone, uC]
  · simp +decide [assignJobOp, logsAfter, getJob, db_update_job, db_add_log,
      dbS, jDone, uC]

/-- Claim C5 is right and the code wrong: manual assignment with a null
clerk id produces status `assigned` with no clerk, violating the
declared invariant. -/
theorem C5_thm :
    (getJob dbP 1).map assignmentInvariant = some true ∧
    (jobAfter (assignJobOp dbP 1 none none) 1).map assignmentInvariant =
      some false ∧
    (jobAfter (assignJobOp dbP 1 none none) 1).map
      (fun j => (j.assigned_clerk_id, j.status)) =
        some (none, JobStatus.assigned) := by
  refine ⟨by simp +decide [getJob, assignmentInvariant, dbP, jPend], ?_, ?_⟩
  · simp +decide [assignJobOp, jobAfter, getJob, db_update_job, db_add_log,
      assignmentInvariant, dbP, jPend]
  · simp +decide [assignJobOp, jobAfter, getJob, db_update_job, db_add_log,
      dbP, jPend]

/-- Claim C6 (amended): every dedicated assignment-changing operation
(create with auto or manual assignment, the assign endpoint, rejection
with its auto-reassignment) appends exactly the matching AssignmentLog
entries (previous = clerk before, new = clerk after), and no operation
ever updates or deletes an existing entry; however the generic update
endpoint changes assigned_clerk_id while appending nothing. -/
theorem C6_thm :
    (∀ (db : DB) (i : JobId) (cid : Option UserId) (r : Option String)
      (db2 : DB) (j : Job), getJob db i = some j →
      assignJobOp db i cid r = Except.ok db2 →
      db2.logs = db.logs ++ [⟨j.id, j.assigned_clerk_id, cid,
        ActionType.MANUAL_OVERRIDE, none, r.getD "Admin manual assignment"⟩] ∧
      getJob db2 i = some { j with assigned_clerk_id := cid,
                                   status := JobStatus.assigned }) ∧
    (∀ (dist : Dist) (today : DateT) (db : DB) (nid : JobId)
      (p : CreatePayload) (db2 : DB), getJob db nid = none →
      createJobOp dist today db nid p = Except.ok db2 →
      (db2.logs = db.logs ∧ getJob db2 nid = some (newJob nid p)) ∨
      (∃ cid atype rsn, db2.logs = db.logs ++
          [⟨nid, none, some cid, atype, none, rsn⟩] ∧
        getJob db2 nid = some { newJob nid p with
          assigned_clerk_id := some cid, status := JobStatus.assigned })) ∧
    (∀ (dist : Dist) (today : DateT) (db : DB) (caller : Option UserId)
      (i : JobId) (db2 : DB) (j : Job), getJob db i = some j →
      rejectJobOp dist today db caller i = Except.ok db2 →
      (db2.logs = db.logs ++ [⟨j.id, j.assigned_clerk_id, none,
          ActionType.REJECTION, caller, "Clerk rejected assignment"⟩] ∧
        getJob db2 i = some { j with assigned_clerk_id := none,
                                     status := JobStatus.pending_assignment }) ∨
      (∃ nc, db2.logs = db.logs ++
          [⟨j.id, j.assigned_clerk_id, none, ActionType.REJECTION, caller,
             "Clerk rejected assignment"⟩,
           ⟨j.id, none, some nc, ActionType.AUTO_ASSIGN, none,
             "Auto-reassigned after rejection"⟩] ∧
        getJob db2 i = some { j with assigned_clerk_id := some nc,
                                     status := JobStatus.assigned })) ∧
    (∀ (now : TimeT) (db : DB) (i : JobId) (db2 : DB),
      startJobOp now db i = Except.ok db2 → db2.logs = db.logs) ∧
    (∀ (dist : Dist) (now : TimeT) (db : DB) (i : JobId) (lat lng : Option ℚ)
      (db2 : DB), checkInOp dist now db i lat lng = Except.ok db2 →
      db2.logs = db.logs) ∧
    (∀ (now : TimeT) (db : DB) (i : JobId) (lat lng : Option ℚ) (db2 : DB),
      completeJobOp now db i lat lng = Except.ok db2 → db2.logs = db.logs) ∧
    (∀ (db : DB) (i : JobId) (p : UpdatePayload) (db2 : DB),
      updateJobOp db i p = Except.ok db2 → db2.logs = db.logs) := by
  refine ⟨?_, ?_, ?_, ?_, ?_, ?_, ?_⟩
  · intro db i cid r db2 j hj h
    unfold assignJobOp at h
    rw [hj] at h
    simp only [Except.ok.injEq] at h
    subst h
    constructor
    · have hid := getJob_id db i j hj
      simp [db_add_log, db_update_job, hid]
    · rw [getJob_add_log]
      exact getJob_update db i j _ hj (by simp [getJob_id db i j hj])
  · intro dist today db nid p db2 hfresh h
    unfold createJobOp at h
    cases hp : getProp db p.property_id with
    | none => rw [hp] at h; cases h
    | some prop =>
      rw [hp] at h
      simp only [] at h
      have hnew : getJob { db with jobs := db.jobs ++ [newJob nid p] } nid =
          some (newJob nid p) :=
        getJob_append_fresh db (newJob nid p) nid hfresh rfl
      by_cases hat : (p.assignment_type == "auto") = true
      · rw [if_pos hat] at h
        cases hauto : autoAssignJob dist today
            { db with jobs := db.jobs ++ [newJob nid p] } (newJob nid p) prop with
        | none =>
          rw [hauto] at h
          simp only [Except.ok.injEq] at h
          subst h
          exact Or.inl ⟨rfl, hnew⟩
        | some cid =>
          rw [hauto] at h
          simp only [Except.ok.injEq] at h
          subst h
          refine Or.inr ⟨cid, ActionType.AUTO_ASSIGN,
            "Auto-assigned by system based on availability and location",
            ⟨rfl, ?_⟩⟩
          rw [getJob_add_log]
          exact getJob_update _ nid (newJob nid p) _ hnew rfl
      · rw [if_neg hat] at h
        by_cases hmt : (p.assignment_type == "manual") = true
        · rw [if_pos hmt] at h
          cases hcid : p.clerk_id with
          | none =>
            rw [hcid] at h
            simp only [Except.ok.injEq] at h
            subst h
            exact Or.inl ⟨rfl, hnew⟩
          | some cid =>
            rw [hcid] at h
            simp only [] at h
            by_cases hvc : ((db.users.find? (fun u =>
                u.id == cid && u.role == Role.clerk && u.is_active)).isSome) = true
            · rw [if_pos hvc] at h
              simp only [Except.ok.injEq] at h
              subst h
              refine Or.inr ⟨cid, ActionType.MANUAL_OVERRIDE,
                p.reason.getD "Manual assignment during job creation", ⟨rfl, ?_⟩⟩
              rw [getJob_add_log]
              exact getJob_update _ nid (newJob nid p) _ hnew rfl
            · rw [if_neg hvc] at h
              cases h
        · rw [if_neg hmt] at h
          simp only [Except.ok.injEq] at h
          subst h
          exact Or.inl ⟨rfl, hnew⟩
  · intro dist today db caller i db2 j hj h
    obtain ⟨j2, uid, hj2, hc, ha, hcases⟩ :=
      rejectJobOp_spec dist today db caller i db2 h
    rw [hj] at hj2
    injection hj2 with hj2
    subst hj2
    subst hc
    rcases hcases with ⟨hdb2, -⟩ | ⟨q, nc, -, -, hdb2⟩
    · subst hdb2
      refine Or.inl ⟨?_, ?_⟩
      · rw [ha]
        simp [db_add_log, db_update_job]
      · rw [getJob_add_log]
        exact getJob_update db i j _ hj (by simp [getJob_id db i j hj])
    · subst hdb2
      refine Or.inr ⟨nc, ?_, ?_⟩
      · rw [ha]
        simp [db_add_log, db_update_job]
      · rw [getJob_add_log]
        have hmid := getJob_update db i j
          { j with assigned_clerk_id := none,
                   status := JobStatus.pending_assignment } hj
          (by simp [getJob_id db i j hj])
        exact getJob_update _ i _ _ (by rw [getJob_add_log]; exact hmid)
          (by simp [getJob_id db i j hj])
  · intro now db i db2 h
    unfold startJobOp at h
    cases hj : getJob db i with
    | none => rw [hj] at h; cases h
    | some j =>
      rw [hj] at h
      simp only [Except.ok.injEq] at h
      subst h
      rfl
  · intro dist now db i lat lng db2 h
    unfold checkInOp at h
    cases hj : getJob db i with
    | none => rw [hj] at h; cases h
    | some j =>
      rw [hj] at h
      simp only [] at h
      cases hp : getProp db j.property_id with
      | none =>
        rw [hp] at h
        simp only [Except.ok.injEq] at h
        subst h
        rfl
      | some p =>
        rw [hp] at h
        simp only [] at h
        by_cases h1 : (truthy p.latitude && truthy p.longitude) = true
        · rw [if_pos h1] at h
          by_cases h2 : (truthy lat && truthy lng) = true
          · rw [if_pos h2] at h
            simp only [Except.ok.injEq] at h
            subst h
            rfl
          · rw [if_neg h2] at h
            simp only [Except.ok.injEq] at h
            subst h
            rfl
        · rw [if_neg h1] at h
          simp only [Except.ok.injEq] at h
          subst h
          rfl
  · intro now db i lat lng db2 h
    unfold completeJobOp at h
    cases hj : getJob db i with
    | none => rw [hj] at h; cases h
    | some j =>
      rw [hj] at h
      simp only [Except.ok.injEq] at h
      subst h
      rfl
  · intro db i p db2 h
    unfold updateJobOp at h
    cases hj : getJob db i with
    | none => rw [hj] at h; cases h
    | some j =>
      rw [hj] at h
      simp only [Except.ok.injEq] at h
      subst h
      rfl

/-- Witness for C6: the assign endpoint on the pending fixture logs one
matching MANUAL_OVERRIDE entry. -/
theorem C6_wit :
    ∃ db2, assignJobOp dbP 1 (some 5) none = Except.ok db2 ∧
      db2.logs = dbP.logs ++ [⟨jPend.id, jPend.assigned_clerk_id, some 5,
        ActionType.MANUAL_OVERRIDE, none, "Admin manual assignment"⟩] ∧
      getJob db2 1 = some { jPend with assigned_clerk_id := some 5,
                                       status := JobStatus.assigned } := by
  obtain ⟨h1, -⟩ := C6_thm
  cases hrun : assignJobOp dbP 1 (some 5) none with
  | error e => exact absurd hrun (by simp +decide [assignJobOp, getJob, db_update_job, db_add_log, dbP, jPend])
  | ok db2 =>
    obtain ⟨hlogs, hget⟩ := h1 dbP 1 (some 5) none db2 jPend
      (by simp +decide [getJob, dbP, jPend]) hrun
    exact ⟨db2, rfl, hlogs, hget⟩

/-- Claim C6 as stated is false: the generic update endpoint changes
`assigned_clerk_id` (5 → 7) while the log table stays untouched. -/
theorem C6_cex :
    (getJob dbA 1).map Job.assigned_clerk_id = some (some 5) ∧
    (jobAfter (updateJobOp dbA 1 ⟨none, some (some 7)⟩) 1).map
      Job.assigned_clerk_id = some (some 7) ∧
    logsAfter (updateJobOp dbA 1 ⟨none, some (some 7)⟩) = some dbA.logs := by
  refine ⟨by simp +decide [getJob, dbA, jAss], ?_, ?_⟩
  · simp +decide [updateJobOp, jobAfter, getJob, db_update_job, dbA, jAss]
  · simp +decide [updateJobOp, logsAfter, getJob, db_update_job, dbA, jAss]

/-- Claim C7: only the assigned clerk may reject (anyone else gets an
authorization error and no change); a valid rejection clears the clerk,
moves the job to pending_assignment, writes a REJECTION entry naming the
rejecting clerk, and immediately attempts reassignment: on success the
job ends assigned to the new clerk with a second AUTO_ASSIGN entry, and
with no eligible clerk it stays pending with a null clerk. -/
theorem C7_thm :
    ∀ (dist : Dist) (today : DateT) (db : DB) (caller : Option UserId)
      (i : JobId) (j : Job), getJob db i = some j →
      ((caller = none ∨ caller ≠ j.assigned_clerk_id) →
        rejectJobOp dist today db caller i =
          Except.error ApiError.unauthorized) ∧
      (∀ uid, caller = some uid → j.assigned_clerk_id = some uid →
        ∀ p, getProp db j.property_id = some p →
        (autoAssignJob dist today
            (db_add_log (db_update_job db
              { j with assigned_clerk_id := none,
                       status := JobStatus.pending_assignment })
              ⟨j.id, some uid, none, ActionType.REJECTION, some uid,
                "Clerk rejected assignment"⟩)
            { j with assigned_clerk_id := none,
                     status := JobStatus.pending_assignment } p = none →
          rejectJobOp dist today db caller i = Except.ok
            (db_add_log (db_update_job db
              { j with assigned_clerk_id := none,
                       status := JobStatus.pending_assignment })
              ⟨j.id, some uid, none, ActionType.REJECTION, some uid,
                "Clerk rejected assignment"⟩) ∧
          getJob (db_add_log (db_update_job db
              { j with assigned_clerk_id := none,
                       status := JobStatus.pending_assignment })
              ⟨j.id, some uid, none, ActionType.REJECTION, some uid,
                "Clerk rejected assignment"⟩) i =
            some { j with assigned_clerk_id := none,
                          status := JobStatus.pending_assignment } ∧
          (db_add_log (db_update_job db
              { j with assigned_clerk_id := none,
                       status := JobStatus.pending_assignment })
              ⟨j.id, some uid, none, ActionType.REJECTION, some uid,
                "Clerk rejected assignment"⟩).logs =
            db.logs ++ [⟨j.id, some uid, none, ActionType.REJECTION, some uid,
              "Clerk rejected assignment"⟩]) ∧
        (∀ nc, autoAssignJob dist today
            (db_add_log (db_update_job db
              { j with assigned_clerk_id := none,
                       status := JobStatus.pending_assignment })
              ⟨j.id, some uid, none, ActionType.REJECTION, some uid,
                "Clerk rejected assignment"⟩)
            { j with assigned_clerk_id := none,
                     status := JobStatus.pending_assignment } p = some nc →
          ∃ db2, rejectJobOp dist today db caller i = Except.ok db2 ∧
            getJob db2 i = some { j with assigned_clerk_id := some nc,
                                         status := JobStatus.assigned } ∧
            db2.logs = db.logs ++
              [⟨j.id, some uid, none, ActionType.REJECTION, some uid,
                 "Clerk rejected assignment"⟩,
               ⟨j.id, none, some nc, ActionType.AUTO_ASSIGN, none,
                 "Auto-reassigned after rejection"⟩])) := by
  intro dist today db caller i j hj
  refine ⟨fun h => rejectJobOp_unauthorized dist today db caller i j hj h, ?_⟩
  intro uid hc ha p hp
  have hbeq : (j.assigned_clerk_id == some uid) = true := by simp [ha]
  have hji : j.id = i := getJob_id db i j hj
  have hrun : rejectJobOp dist today db caller i =
      (match autoAssignJob dist today
          (db_add_log (db_update_job db
            { j with assigned_clerk_id := none,
                     status := JobStatus.pending_assignment })
            ⟨j.id, some uid, none, ActionType.REJECTION, some uid,
              "Clerk rejected assignment"⟩)
          { j with assigned_clerk_id := none,
                   status := JobStatus.pending_assignment } p with
       | some nc => Except.ok (db_add_log (db_update_job
           (db_add_log (db_update_job db
             { j with assigned_clerk_id := none,
                      status := JobStatus.pending_assignment })
             ⟨j.id, some uid, none, ActionType.REJECTION, some uid,
               "Clerk rejected assignment"⟩)
           { j with assigned_clerk_id := some nc,
                    status := JobStatus.assigned })
           ⟨j.id, none, some nc, ActionType.AUTO_ASSIGN, none,
             "Auto-reassigned after rejection"⟩)
       | none => Except.ok (db_add_log (db_update_job db
           { j with assigned_clerk_id := none,
                    status := JobStatus.pending_assignment })
           ⟨j.id, some uid, none, ActionType.REJECTION, some uid,
             "Clerk rejected assignment"⟩)) := by
    unfold rejectJobOp
    rw [hj, hc]
    simp only [hbeq, Bool.not_true, Bool.false_eq_true, if_false]
    rw [hp]
    simp only [ha]
  have hmid : getJob (db_add_log (db_update_job db
      { j with assigned_clerk_id := none,
               status := JobStatus.pending_assignment })
      ⟨j.id, some uid, none, ActionType.REJECTION, some uid,
        "Clerk rejected assignment"⟩) i =
      some { j with assigned_clerk_id := none,
                    status := JobStatus.pending_assignment } := by
    rw [getJob_add_log]
    exact getJob_update db i j _ hj (by simp [hji])
  constructor
  · intro hnone
    rw [hnone] at hrun
    exact ⟨hrun, hmid, rfl⟩
  · intro nc hsome
    rw [hsome] at hrun
    refine ⟨_, hrun, ?_, ?_⟩
    · rw [getJob_add_log]
      exact getJob_update _ i _ _ hmid (by simp [hji])
    · simp [db_add_log_logs, db_update_job_logs]

/-- Witness for C7: clerk 5 rejects job 1; clerk 1 is eligible, so the
job is reassigned with a REJECTION then an AUTO_ASSIGN entry. -/
theorem C7_wit :
    ∃ db2, rejectJobOp dTie 100 dbR (some 5) 1 = Except.ok db2 ∧
      getJob db2 1 = some { jAss with assigned_clerk_id := some 1,
                                      status := JobStatus.assigned } ∧
      db2.logs = dbR.logs ++
        [⟨jAss.id, some 5, none, ActionType.REJECTION, some 5,
           "Clerk rejected assignment"⟩,
         ⟨jAss.id, none, some 1, ActionType.AUTO_ASSIGN, none,
           "Auto-reassigned after rejection"⟩] := by
  obtain ⟨-, h2⟩ := C7_thm dTie 100 dbR (some 5) 1 jAss
    (by simp +decide [getJob, dbR, jAss])
  obtain ⟨-, h3⟩ := h2 5 rfl (by simp [jAss]) p0
    (by simp +decide [getProp, dbR, jAss, p0])
  exact h3 1 (by
    simp +decide [autoAssignJob, eligibleClerks, baseClerks, availOk, scoreClerk,
      continuityScore, geoScore, workloadScore, sortDesc, insertDesc,
      latestCompleted, activeJobCount, truthy, pymax, descBefore,
      db_add_log, db_update_job, dTie, dbR, uR5, u1, p0, jAss,
      List.filter, List.foldl, List.find?])

/-- Claim C8: selection is a pure function of the inputs (hence two runs
agree), and the winner is the single entry of the resolved score list
that is maximal and strictly above every entry occurring before it:
the stable tie-break of the Python sort keeps resolution order. -/
theorem C8_thm :
    ∀ (dist : Dist) (today : DateT) (db : DB) (job : Job) (prop : Property)
      (c : UserId),
      autoAssignJob dist today db job prop = some c →
      ∃ w l1 l2,
        w.1 = c ∧
        (eligibleClerks today db job.appointment_date).map
          (fun u => (u.id, scoreClerk dist today db job prop
            (latestCompleted db.jobs prop.id) u)) = l1 ++ w :: l2 ∧
        (∀ y ∈ l1 ++ w :: l2, y.2 ≤ w.2) ∧
        (∀ y ∈ l1, y.2 < w.2) := by
  intro dist today db job prop c h
  rw [autoAssignJob_char] at h
  cases hp : eligibleClerks today db job.appointment_date with
  | nil => rw [hp] at h; simp at h
  | cons u us =>
    rw [hp] at h
    simp only [List.map_cons] at h ⊢
    set f := fun v : User => (v.id, scoreClerk dist today db job prop
      (latestCompleted db.jobs prop.id) v) with hf
    have hc : (bestFrom (f u) (us.map f)).1 = c := by simpa using h
    rcases bestFrom_split (us.map f) (f u) with ⟨l1, l2, heq, hlt⟩
    refine ⟨bestFrom (f u) (us.map f), l1, l2, hc, heq, ?_, hlt⟩
    intro y hy
    rw [← heq] at hy
    exact bestFrom_ge (f u) (us.map f) y hy

/-- Witness for C8: two clerks tie at 20 points; the first one in
resolution order (clerk 1) wins. -/
theorem C8_wit :
    ∃ w l1 l2, w.1 = 1 ∧
      (eligibleClerks 100 dbTie j0.appointment_date).map
        (fun u => (u.id, scoreClerk dTie 100 dbTie j0 p0
          (latestCompleted dbTie.jobs p0.id) u)) = l1 ++ w :: l2 ∧
      (∀ y ∈ l1 ++ w :: l2, y.2 ≤ w.2) ∧
      (∀ y ∈ l1, y.2 < w.2) := by
  apply C8_thm dTie 100 dbTie j0 p0 1
  simp +decide [autoAssignJob, eligibleClerks, baseClerks, availOk, scoreClerk,
    continuityScore, geoScore, workloadScore, sortDesc, insertDesc,
    latestCompleted, activeJobCount, truthy, pymax, descBefore, dTie, dbTie, u1, u2, p0, j0,
    List.filter, List.foldl, List.find?]

/-- Claim C9 (amended): when the property and the submitted coordinates
are all truthy (non-null and nonzero), check-in sets the warning flag to
(distance > 0.1 km); otherwise the flag keeps its prior value. -/
theorem C9_thm :
    ∀ (dist : Dist) (now : TimeT) (db : DB) (i : JobId) (lat lng : Option ℚ)
      (j : Job) (p : Property),
      getJob db i = some j → getProp db j.property_id = some p →
      ∃ db2, checkInOp dist now db i lat lng = Except.ok db2 ∧
        ∃ j2, getJob db2 i = some j2 ∧
          j2.check_in_lat = lat ∧ j2.check_in_lng = lng ∧
          j2.check_in_at = some now ∧ j2.status = JobStatus.in_progress ∧
          ((truthy p.latitude && truthy p.longitude && truthy lat &&
              truthy lng) = true →
            j2.location_warning_flag =
              decide (dist (p.latitude.getD 0) (p.longitude.getD 0)
                (lat.getD 0) (lng.getD 0) > 1/10)) ∧
          ((truthy p.latitude && truthy p.longitude && truthy lat &&
              truthy lng) = false →
            j2.location_warning_flag = j.location_warning_flag) := by
  intro dist now db i lat lng j p hj hp
  have hji : j.id = i := getJob_id db i j hj
  unfold checkInOp
  rw [hj]
  simp only []
  rw [hp]
  simp only []
  by_cases hpl : (truthy p.latitude && truthy p.longitude) = true
  · by_cases hll : (truthy lat && truthy lng) = true
    · simp only [hpl, hll, if_true]
      refine ⟨_, rfl, _, getJob_update db i j _ hj (by simp [hji]), rfl, rfl,
        rfl, rfl, fun _ => rfl, fun hfalse => ?_⟩
      simp [hll] at hfalse
    · have hll2 : (truthy lat && truthy lng) = false := by simpa using hll
      simp only [hpl, hll2, if_true, Bool.false_eq_true, if_false]
      refine ⟨_, rfl, _, getJob_update db i j _ hj (by simp [hji]), rfl, rfl,
        rfl, rfl, fun htrue => ?_, fun _ => rfl⟩
      simp only [Bool.and_eq_true] at htrue
      rw [htrue.1.2, htrue.2] at hll2
      exact absurd hll2 (by simp)
  · have hpl2 : (truthy p.latitude && truthy p.longitude) = false := by
      simpa using hpl
    simp only [hpl2, Bool.false_eq_true, if_false]
    refine ⟨_, rfl, _, getJob_update db i j _ hj (by simp [hji]), rfl, rfl,
      rfl, rfl, fun htrue => ?_, fun _ => rfl⟩
    simp only [Bool.and_eq_true] at htrue
    exact absurd htrue.1.1 (by simp)

/-- Witness for C9 at Scenario D: 150 m away sets the flag, 50 m away
leaves it false. -/
theorem C9_wit :
    (∃ db2, checkInOp dist15 50 dbP 1 (some 1) (some 1) = Except.ok db2 ∧
      ∃ j2, getJob db2 1 = some j2 ∧ j2.location_warning_flag = true) ∧
    (∃ db2, checkInOp dist05 50 dbP 1 (some 1) (some 1) = Except.ok db2 ∧
      ∃ j2, getJob db2 1 = some j2 ∧ j2.location_warning_flag = false) := by
  constructor
  · obtain ⟨db2, hok, j2, hget, -, -, -, -, hflag, -⟩ :=
      C9_thm dist15 50 dbP 1 (some 1) (some 1) jPend p0
        (by simp +decide [getJob, dbP, jPend])
        (by simp +decide [getProp, dbP, jPend, p0])
    refine ⟨db2, hok, j2, hget, ?_⟩
    rw [hflag (by simp +decide [truthy, p0])]
    simp only [decide_eq_true_eq]
    norm_num [dist15, p0]
  · obtain ⟨db2, hok, j2, hget, -, -, -, -, hflag, -⟩ :=
      C9_thm dist05 50 dbP 1 (some 1) (some 1) jPend p0
        (by simp +decide [getJob, dbP, jPend])
        (by simp +decide [getProp, dbP, jPend, p0])
    refine ⟨db2, hok, j2, hget, ?_⟩
    rw [hflag (by simp +decide [truthy, p0])]
    simp only [decide_eq_false_iff_not]
    norm_num [dist05, p0]

/-- Claim C9 as stated is false: both coordinate pairs are present
(non-null) and the distance exceeds 0.1 km, yet the flag stays false,
because the stored property latitude is 0 and the geofence check is
skipped. -/
theorem C9_cex :
    pZ9.latitude.isSome = true ∧ pZ9.longitude.isSome = true ∧
    (some (1 : ℚ)).isSome = true ∧
    dist5 0 1 1 1 > 1/10 ∧
    (jobAfter (checkInOp dist5 50 dbZ9 1 (some 1) (some 1)) 1).map
      Job.location_warning_flag = some false := by
  refine ⟨by simp [pZ9], by simp [pZ9], by simp, by norm_num [dist5], ?_⟩
  simp +decide [checkInOp, jobAfter, getJob, getProp, db_update_job, truthy,
    dist5, dbZ9, jZ9, pZ9]

/-- Claim C10: a stored coordinate of exactly 0 behaves as absent
everywhere coordinates are tested: (a) such a clerk is excluded from the
same-day pool; (b) a property with a 0 coordinate yields no
distance-or-postcode component for any candidate; (c) a check-in
involving any 0 (or missing) coordinate skips the geofence check, so
the warning flag keeps its prior value. -/
theorem C10_thm :
    (∀ (today : DateT) (db : DB) (d : DateT) (u : User), d = today →
      (u.current_lat = some 0 ∨ u.current_lng = some 0) →
      u ∉ eligibleClerks today db d) ∧
    (∀ (dist : Dist) (today : DateT) (db : DB) (job : Job) (prop : Property)
      (pj : Option Job) (clerk : User),
      (prop.latitude = some 0 ∨ prop.longitude = some 0) →
      scoreClerk dist today db job prop pj clerk =
        continuityScore pj clerk + workloadScore db clerk) ∧
    (∀ (dist : Dist) (now : TimeT) (db : DB) (i : JobId) (lat lng : Option ℚ)
      (j : Job) (p : Property),
      getJob db i = some j → getProp db j.property_id = some p →
      (p.latitude = some 0 ∨ p.longitude = some 0 ∨ lat = none ∨
       lat = some 0 ∨ lng = none ∨ lng = some 0) →
      ∃ db2, checkInOp dist now db i lat lng = Except.ok db2 ∧
        ∃ j2, getJob db2 i = some j2 ∧
          j2.location_warning_flag = j.location_warning_flag ∧
          j2.status = JobStatus.in_progress) := by
  refine ⟨?_, ?_, ?_⟩
  · intro today db d u hd hu hmem
    unfold eligibleClerks at hmem
    rw [List.mem_filter] at hmem
    have hav := hmem.2
    unfold availOk at hav
    have hd2 : (d == today) = true := by simpa using hd
    rw [if_pos hd2] at hav
    rcases hu with hu | hu <;> rw [hu] at hav <;> simp [truthy] at hav
  · intro dist today db job prop pj clerk hprop
    unfold scoreClerk
    have hgeo : geoScore dist today db job prop clerk = 0 := by
      unfold geoScore
      have : (truthy prop.latitude && truthy prop.longitude) = false := by
        rcases hprop with h | h <;> rw [h] <;> simp [truthy]
      simp [this]
    rw [hgeo]
    ring
  · intro dist now db i lat lng j p hj hp hzero
    have hji : j.id = i := getJob_id db i j hj
    unfold checkInOp
    rw [hj]
    simp only []
    rw [hp]
    simp only []
    have hcond : (truthy p.latitude && truthy p.longitude) = false ∨
        (truthy lat && truthy lng) = false := by
      rcases hzero with h | h | h | h | h | h
      · exact Or.inl (by rw [h]; simp [truthy])
      · exact Or.inl (by rw [h]; simp [truthy])
      · exact Or.inr (by rw [h]; simp [truthy])
      · exact Or.inr (by rw [h]; simp [truthy])
      · exact Or.inr (by rw [h]; simp [truthy])
      · exact Or.inr (by rw [h]; simp [truthy])
    rcases hcond with hc | hc
    · rw [hc]
      simp only [Bool.false_eq_true, if_false]
      exact ⟨_, rfl, _, getJob_update db i j _ hj (by simp [hji]), rfl, rfl⟩
    · by_cases hpl : (truthy p.latitude && truthy p.longitude) = true
      · rw [hpl, hc]
        simp only [if_true, Bool.false_eq_true, if_false]
        exact ⟨_, rfl, _, getJob_update db i j _ hj (by simp [hji]), rfl, rfl⟩
      · have hpl2 : (truthy p.latitude && truthy p.longitude) = false := by
          simpa using hpl
        rw [hpl2]
        simp only [Bool.false_eq_true, if_false]
        exact ⟨_, rfl, _, getJob_update db i j _ hj (by simp [hji]), rfl, rfl⟩

/-- Witness for C10: a clerk at latitude 0 is excluded same-day; a
property at longitude 0 scores continuity+workload only; a check-in at
latitude 0 leaves the warning flag alone. -/
theorem C10_wit :
    uZ ∉ eligibleClerks 100 dbZ 100 ∧
    scoreClerk dTie 100 dbZ j0 ⟨7, "AB1 2CD", some 50, some 0⟩ none uZ =
      continuityScore none uZ + workloadScore dbZ uZ ∧
    (∃ db2, checkInOp dTie 50 dbP 1 (some 0) (some 2) = Except.ok db2 ∧
      ∃ j2, getJob db2 1 = some j2 ∧
        j2.location_warning_flag = jPend.location_warning_flag ∧
        j2.status = JobStatus.in_progress) := by
  obtain ⟨h1, h2, h3⟩ := C10_thm
  refine ⟨h1 100 dbZ 100 uZ rfl (Or.inl (by simp [uZ])), ?_, ?_⟩
  · exact h2 dTie 100 dbZ j0 ⟨7, "AB1 2CD", some 50, some 0⟩ none uZ
      (Or.inr rfl)
  · exact h3 dTie 50 dbP 1 (some 0) (some 2) jPend p0
      (by simp +decide [getJob, dbP, jPend])
      (by simp +decide [getProp, dbP, jPend, p0])
      (Or.inr (Or.inr (Or.inr (Or.inl rfl))))

end LDN
